import Mathlib

/-!
Shallow embedding of the core of `vita-elf.c` / `vita-elf-create.c`
(the ELF-to-module transform engine of the vita-toolchain fork).

Machine integers are modelled as `Nat` with explicit `% 2^32` where the C
performs 32-bit unsigned arithmetic; signed 32-bit results (the relocation
addend, printed with `%+d`) are read back through `toInt32`.  Fallible C
functions (those that `FAILX`/return 0, making the caller `goto failure`)
are modelled with `Option`/`Except`.
-/

set_option autoImplicit false

/-- ARM relocation type constants, as in the ELF headers used by the source. -/
def R_ARM_NONE : Nat := 0
def R_ARM_ABS32 : Nat := 2
def R_ARM_REL32 : Nat := 3
def R_ARM_THM_CALL : Nat := 10
def R_ARM_CALL : Nat := 28
def R_ARM_JUMP24 : Nat := 29
def R_ARM_THM_JUMP24 : Nat := 30
def R_ARM_TARGET1 : Nat := 38
def R_ARM_V4BX : Nat := 40
def R_ARM_TARGET2 : Nat := 41
def R_ARM_PREL31 : Nat := 42
def R_ARM_MOVW_ABS_NC : Nat := 43
def R_ARM_MOVT_ABS : Nat := 44
def R_ARM_THM_MOVW_ABS_NC : Nat := 47
def R_ARM_THM_MOVT_ABS : Nat := 48
def R_ARM_THM_PC11 : Nat := 102

/-- Symbol type/binding constants from the ELF headers. -/
def STT_OBJECT : Nat := 1
def STT_FUNC : Nat := 2
def STB_GLOBAL : Nat := 1

/-- 2^32, the modulus of the C `uint32_t` arithmetic. -/
def U32 : Nat := 4294967296

/-- C `uint32_t` subtraction `a - b` (two's-complement wraparound). -/
def u32sub (a b : Nat) : Nat := (a + (U32 - b % U32)) % U32

/-- Reading of a `uint32_t` bit pattern as the C `int` it is assigned to
(the `addend` field is signed; `print_rtable` prints it with `%+d`). -/
def toInt32 (n : Nat) : Int :=
  if n % U32 < 2147483648 then (n % U32 : Int) else (n % U32 : Int) - (U32 : Int)

/-- `THUMB_SHUFFLE` macro from vita-elf.c line 115: swap the two 16-bit
halves of a 32-bit word. -/
def THUMB_SHUFFLE (x : Nat) : Nat :=
  ((x &&& 0xFFFF0000) >>> 16) ||| ((x &&& 0xFFFF) <<< 16)

/-- `decode_rel_target` from vita-elf.c lines 116-163.  `data` is the
instruction word already byte-swapped to host order, `addr` the relocation
offset; both are `uint32_t`.  The C default branch calls `errx` (process
abort), modelled as `none`; every type accepted by `get_rel_handling` as
NORMAL or IGNORE returns `some`. -/
def decode_rel_target (data : Nat) (rtype : Nat) (addr : Nat) : Option Nat :=
  if rtype = R_ARM_NONE ∨ rtype = R_ARM_V4BX then
    some 0xdeadbeef
  else if rtype = R_ARM_ABS32 ∨ rtype = R_ARM_TARGET1 then
    some (data % U32)
  else if rtype = R_ARM_REL32 ∨ rtype = R_ARM_TARGET2 then
    some ((data + addr) % U32)
  else if rtype = R_ARM_PREL31 then
    some ((data + addr) % U32)
  else if rtype = R_ARM_THM_CALL then
    some (decodeThmCall data addr)
  else if rtype = R_ARM_CALL ∨ rtype = R_ARM_JUMP24 then
    some (((((data &&& 0x00FFFFFF) <<< 2) + addr) % U32 <<< 8) % U32 >>> 8)
  else if rtype = R_ARM_MOVW_ABS_NC then
    some (((data &&& 0xF0000) >>> 4) ||| (data &&& 0xFFF))
  else if rtype = R_ARM_MOVT_ABS then
    some ((((data &&& 0xF0000) >>> 4) ||| (data &&& 0xFFF)) <<< 16)
  else if rtype = R_ARM_THM_MOVW_ABS_NC then
    some (decodeThmMovw (THUMB_SHUFFLE data))
  else if rtype = R_ARM_THM_MOVT_ABS then
    some (decodeThmMovt (THUMB_SHUFFLE data))
  else
    none
where
  /-- body of the `R_ARM_THM_CALL` case (32-bit Thumb BL), vita-elf.c
  lines 131-140, after the `THUMB_SHUFFLE`. -/
  decodeThmCall (data addr : Nat) : Nat :=
    let d := THUMB_SHUFFLE data
    let upper := d >>> 16
    let lower := d &&& 0xFFFF
    let sign := (upper >>> 10) &&& 1
    let j1 := (lower >>> 13) &&& 1
    let j2 := (lower >>> 11) &&& 1
    let imm10 := upper &&& 0x3FF
    let imm11 := lower &&& 0x7FF
    let nj2 := if j2 ^^^ sign = 0 then 1 else 0
    let nj1 := if j1 ^^^ sign = 0 then 1 else 0
    (addr + (((imm11 ||| (imm10 <<< 11) ||| (nj2 <<< 21) ||| (nj1 <<< 22) |||
        (sign <<< 23)) <<< 1) ||| (if sign ≠ 0 then 0xFF000000 else 0))) % U32
  /-- body of the `R_ARM_THM_MOVW_ABS_NC` case, lines 148-153, after the
  shuffle. -/
  decodeThmMovw (d : Nat) : Nat :=
    (((d >>> 16) &&& 0xF) <<< 12) ||| (((d >>> 26) &&& 0x1) <<< 11) |||
      (((d >>> 12) &&& 0x7) <<< 8) ||| (d &&& 0xFF)
  /-- body of the `R_ARM_THM_MOVT_ABS` case, lines 154-159, after the
  shuffle. -/
  decodeThmMovt (d : Nat) : Nat :=
    (((d >>> 16) &&& 0xF) <<< 28) ||| (((d >>> 26) &&& 0x1) <<< 27) |||
      (((d >>> 12) &&& 0x7) <<< 24) ||| ((d &&& 0xFF) <<< 16)

/-- Modelled from the spec (claim C1's reading): decode of a 24-bit branch
field as `((data & 0x00FFFFFF) << 2)` sign-extended from bit 25 in 26-bit
two's-complement arithmetic, then `+ offset` in 32-bit arithmetic. -/
def claimC1_target (data offset : Nat) : Nat :=
  (signExtendFromBit25 ((data &&& 0x00FFFFFF) <<< 2) + offset) % U32
where
  /-- sign extension of a 26-bit value from bit 25 into 32 bits: adding
  `0xFC000000` fills bits 26-31 exactly when bit 25 is set. -/
  signExtendFromBit25 (x : Nat) : Nat :=
    if x &&& 0x2000000 ≠ 0 then x + 0xFC000000 else x


/-- `REL_HANDLE_*` constants and `get_rel_handling`, vita-elf.c
lines 165-190. -/
def REL_HANDLE_NORMAL : Int := 0
def REL_HANDLE_IGNORE : Int := -1
def REL_HANDLE_INVALID : Int := -2

def get_rel_handling (rtype : Nat) : Int :=
  if rtype = R_ARM_NONE ∨ rtype = R_ARM_V4BX then
    REL_HANDLE_IGNORE
  else if rtype = R_ARM_ABS32 ∨ rtype = R_ARM_TARGET1 ∨ rtype = R_ARM_REL32 ∨
      rtype = R_ARM_TARGET2 ∨ rtype = R_ARM_PREL31 ∨ rtype = R_ARM_THM_CALL ∨
      rtype = R_ARM_CALL ∨ rtype = R_ARM_JUMP24 ∨ rtype = R_ARM_MOVW_ABS_NC ∨
      rtype = R_ARM_MOVT_ABS ∨ rtype = R_ARM_THM_MOVW_ABS_NC ∨
      rtype = R_ARM_THM_MOVT_ABS then
    REL_HANDLE_NORMAL
  else
    REL_HANDLE_INVALID

/-- One entry of the materialised symbol array (`vita_elf_symbol_t`;
loaded by `load_symbols`, vita-elf.c lines 68-113). -/
structure VitaElfSymbol where
  name : String
  value : Nat
  stype : Nat
  binding : Nat
  shndx : Nat
  deriving DecidableEq, Repr

/-- A raw REL entry as returned by `gelf_getrel`: `r_offset` plus the
type and symbol index unpacked from `r_info`. -/
structure GElfRel where
  r_offset : Nat
  rtype : Nat
  rsym : Nat
  deriving DecidableEq, Repr

/-- One slot of a loaded relocation table (`vita_elf_rela_t`).  The array
is `calloc`ed, so the default (all-zero / NULL) field values below are what
a slot holds when `load_rel_table` `continue`s before filling it.  The
`addend` field is signed (spec §3; `print_rtable` prints it `%+d`). -/
structure VitaElfRela where
  rtype : Nat := 0
  offset : Nat := 0
  symbol : Option VitaElfSymbol := none
  addend : Int := 0
  deriving DecidableEq, Repr

/-- Little-endian 32-bit read at byte index `i` of the target section's
data buffer (`le32toh(*(uint32_t*)(buf+i))`, vita-elf.c line 244). -/
def le32At (bytes : List Nat) (i : Nat) : Nat :=
  bytes.getD i 0 + (bytes.getD (i + 1) 0) <<< 8 +
    (bytes.getD (i + 2) 0) <<< 16 + (bytes.getD (i + 3) 0) <<< 24

/-- `R_ARM_THM_JUMP24` is rewritten to `R_ARM_THM_CALL` before any other
use of the type (vita-elf.c lines 235-237). -/
def normalizeRelType (t : Nat) : Nat :=
  if t = R_ARM_THM_JUMP24 then R_ARM_THM_CALL else t

/-- The adjusted symbol value subtracted from the decoded target
(vita-elf.c lines 261-271): MOVT keeps the high half, MOVW the low half,
`THM_CALL` clears the Thumb bit, everything else uses the value as is. -/
def relAdjust (t v : Nat) : Nat :=
  if t = R_ARM_MOVT_ABS ∨ t = R_ARM_THM_MOVT_ABS then v &&& 0xFFFF0000
  else if t = R_ARM_MOVW_ABS_NC ∨ t = R_ARM_THM_MOVW_ABS_NC then v &&& 0xFFFF
  else if t = R_ARM_THM_CALL then v &&& 0xFFFFFFFE
  else v

/-- The body of the per-entry loop of `load_rel_table` (vita-elf.c lines
229-272) for one REL entry.  `textAddr` is `text_shdr.sh_addr` and
`textBytes` the target section's data.  `none` models the `FAILX` paths
(invalid relocation type, symbol index out of range), which abort the
whole table load. -/
def processRel (symtab : List VitaElfSymbol) (textAddr : Nat)
    (textBytes : List Nat) (rel : GElfRel) : Option VitaElfRela :=
  let t := normalizeRelType rel.rtype
  if t = R_ARM_THM_PC11 then
    -- `continue` before the offset is recorded: the calloc'd slot keeps
    -- only the type already assigned.
    some { rtype := t }
  else
    let insn := le32At textBytes (rel.r_offset - textAddr)
    if get_rel_handling t = REL_HANDLE_IGNORE then
      -- `continue` after type and offset were assigned.
      some { rtype := t, offset := rel.r_offset }
    else if get_rel_handling t = REL_HANDLE_INVALID then
      none
    else
      match symtab.get? rel.rsym with
      | none => none
      | some sym =>
        match decode_rel_target insn t rel.r_offset with
        | none => none
        | some target =>
          some { rtype := t, offset := rel.r_offset, symbol := some sym,
                 addend := toInt32 (u32sub target (relAdjust t sym.value)) }

/-- Option-valued element-wise traversal: the translation of the C `for`
loop that fills one slot per REL entry and aborts on the first failure. -/
def mapOption {α β : Type} (f : α → Option β) : List α → Option (List β)
  | [] => some []
  | a :: l =>
    match f a, mapOption f l with
    | some b, some r => some (b :: r)
    | _, _ => none

/-- `load_rel_table` (vita-elf.c lines 192-281), restricted to the loop
that fills `rtable->relas`: the symbol table is passed in already loaded
(`load_symbols` on `sh_link`), and the resulting slot list is what gets
linked into `ve->rela_tables`.  `none` models `goto failure`. -/
def load_rel_table (symtab : List VitaElfSymbol) (textAddr : Nat)
    (textBytes : List Nat) (rels : List GElfRel) : Option (List VitaElfRela) :=
  mapOption (processRel symtab textAddr textBytes) rels


/-- `vita_elf_segment_info_t`: one program header's record.  `vaddrTop` is
the start of the host placeholder buffer obtained with `mmap` (a plain
address; `0` plays the role of `NULL`); `vaddr_bottom` is always
`vaddr_top + memsz` (vita-elf.c line 443), so it is not a separate field. -/
structure SegmentInfo where
  ptype : Nat
  vaddr : Nat
  memsz : Nat
  vaddrTop : Nat
  deriving DecidableEq, Repr

/-- `vita_elf_vaddr_to_host` (vita-elf.c lines 541-552): first segment
whose guest range contains `vaddr` (the upper bound computed in `uint32_t`
arithmetic) yields `vaddr_top + (vaddr - seg->vaddr)`; otherwise `NULL`
(that is, `0`). -/
def vita_elf_vaddr_to_host : List SegmentInfo → Nat → Nat
  | [], _ => 0
  | seg :: rest, vaddr =>
    if seg.vaddr ≤ vaddr ∧ vaddr < (seg.vaddr + seg.memsz) % U32 then
      seg.vaddrTop + (vaddr - seg.vaddr)
    else
      vita_elf_vaddr_to_host rest vaddr

/-- The scan loop of `vita_elf_host_to_vaddr` (vita-elf.c lines 571-576):
first segment whose host buffer `[vaddr_top, vaddr_bottom)` contains
`host_addr` yields `seg->vaddr + (uint32_t)(host_addr - vaddr_top)`;
otherwise 0.  Host pointer arithmetic does not wrap. -/
def host_to_vaddr_scan : List SegmentInfo → Nat → Nat
  | [], _ => 0
  | seg :: rest, p =>
    if seg.vaddrTop ≤ p ∧ p < seg.vaddrTop + seg.memsz then
      (seg.vaddr + (p - seg.vaddrTop) % U32) % U32
    else
      host_to_vaddr_scan rest p

/-- `vita_elf_host_to_vaddr` (vita-elf.c lines 563-577), including the
`host_addr == NULL → 0` early return. -/
def vita_elf_host_to_vaddr (segments : List SegmentInfo) (p : Nat) : Nat :=
  if p = 0 then 0 else host_to_vaddr_scan segments p

/-- `vita_elf_vaddr_to_segoffset` (vita-elf.c lines 622-631): `0` maps to
`0`, anything else to the raw `uint32_t` subtraction from the indexed
segment's base; there is no containment check on `vaddr`. -/
def vita_elf_vaddr_to_segoffset (segments : List SegmentInfo) (vaddr : Nat)
    (segndx : Nat) : Nat :=
  if vaddr = 0 then 0
  else u32sub vaddr (segments.getD segndx ⟨0, 0, 0, 0⟩).vaddr

/-- `vita_elf_stub_t`: a 16-byte stub slot's decoded contents plus the
late-bound symbol reference written by `lookup_stub_symbols`.  The
import-database bindings (`library`/`module`/`target`) are tracked by the
resolver model separately. -/
structure VitaElfStub where
  addr : Nat
  library_nid : Nat := 0
  module_nid : Nat := 0
  target_nid : Nat := 0
  symbol : Option VitaElfSymbol := none
  deriving DecidableEq, Repr

/-- The inner `for (stub = 0; ...)` loop of `lookup_stub_symbols`
(vita-elf.c lines 309-321): scan the stub array for the first slot whose
`addr` equals the symbol's value.  No such slot (`stub == num_stubs`) or a
slot already carrying a symbol are the two `FAILX` paths, modelled as
`none`; otherwise the slot is bound to `sym`. -/
def bindStubSymbol : List VitaElfStub → VitaElfSymbol → Option (List VitaElfStub)
  | [], _ => none
  | st :: rest, sym =>
    if st.addr = sym.value then
      if st.symbol ≠ none then none
      else some ({ st with symbol := some sym } :: rest)
    else
      (bindStubSymbol rest sym).map (st :: ·)

/-- `lookup_stub_symbols` (vita-elf.c lines 289-328): walk the symbol
table; every GLOBAL FUNC/OBJECT symbol owned by section `stubs_ndx` must
have type `sym_type` and must bind to a stub slot.  `none` models the
`FAILX` paths (type mismatch, duplicate symbol on a slot, no matching
slot), which make `vita_elf_load` fail. -/
def lookup_stub_symbols (sym_type : Nat) (stubs_ndx : Nat) :
    List VitaElfStub → List VitaElfSymbol → Option (List VitaElfStub)
  | stubs, [] => some stubs
  | stubs, sym :: rest =>
    if sym.binding ≠ STB_GLOBAL then
      lookup_stub_symbols sym_type stubs_ndx stubs rest
    else if sym.stype ≠ STT_FUNC ∧ sym.stype ≠ STT_OBJECT then
      lookup_stub_symbols sym_type stubs_ndx stubs rest
    else if sym.shndx ≠ stubs_ndx then
      lookup_stub_symbols sym_type stubs_ndx stubs rest
    else if sym.stype ≠ sym_type then
      none
    else
      match bindStubSymbol stubs sym with
      | none => none
      | some stubs' => lookup_stub_symbols sym_type stubs_ndx stubs' rest

/-- Which of the three `warnx` calls of `lookup_stubs` fired. -/
inductive WarnKind where
  | library
  | moduleNid
  | target
  deriving DecidableEq, Repr

/-- One `warnx` emission of `lookup_stubs`: the NID value interpolated
into the message and the symbol name (or `"(unreferenced stub)"`). -/
structure LookupWarning where
  kind : WarnKind
  nid : Nat
  symname : String
  deriving DecidableEq, Repr

/-- The `%s` argument of the `lookup_stubs` warnings:
`stub->symbol ? stub->symbol->name : "(unreferenced stub)"`. -/
def stubSymName (stub : VitaElfStub) : String :=
  match stub.symbol with
  | some s => s.name
  | none => "(unreferenced stub)"

/-- The inner `for (j = 0; ...)` loop of `lookup_stubs` (vita-elf.c lines
493-498): scan the import databases in order, stopping at the first whose
`vita_imports_find_lib` is non-NULL.  The database handles and the three
external finders are abstract (`vita-import.c` is outside the core). -/
def findLibAcross {α β : Type} (find_lib : α → Nat → Option β) :
    List α → Nat → Option β
  | [], _ => none
  | db :: rest, nid =>
    match find_lib db nid with
    | some l => some l
    | none => findLibAcross find_lib rest nid

/-- The per-stub body of `lookup_stubs` (vita-elf.c lines 490-524):
`none` means the stub fully resolved, `some w` is the single warning the
failing step emitted.  NOTE (faithful to the source, line 520): the
target-miss warning interpolates `stub->module_nid`, not
`stub->target_nid`. -/
def lookupStubStep {α β γ δ : Type} (imports : List α)
    (find_lib : α → Nat → Option β) (find_module : β → Nat → Option γ)
    (find_stub : γ → Nat → Option δ) (stub : VitaElfStub) :
    Option LookupWarning :=
  match findLibAcross find_lib imports stub.library_nid with
  | none => some ⟨.library, stub.library_nid, stubSymName stub⟩
  | some lib =>
    match find_module lib stub.module_nid with
    | none => some ⟨.moduleNid, stub.module_nid, stubSymName stub⟩
    | some m =>
      match find_stub m stub.target_nid with
      | none => some ⟨.target, stub.module_nid, stubSymName stub⟩
      | some _ => none

/-- `lookup_stubs` (vita-elf.c lines 484-527): every stub is processed in
order regardless of earlier misses; the returned flag is `found_all` and
the list collects the emitted warnings in order.  The function never
aborts. -/
def lookup_stubs {α β γ δ : Type} (imports : List α)
    (find_lib : α → Nat → Option β) (find_module : β → Nat → Option γ)
    (find_stub : γ → Nat → Option δ) :
    List VitaElfStub → Bool × List LookupWarning
  | [] => (true, [])
  | stub :: rest =>
    let head := lookupStubStep imports find_lib find_module find_stub stub
    let tail := lookup_stubs imports find_lib find_module find_stub rest
    match head with
    | none => tail
    | some w => (false, w :: tail.2)

/-- Section header type constants used by `vita_elf_load`. -/
def SHT_PROGBITS : Nat := 1
def SHT_SYMTAB : Nat := 2
def SHT_REL : Nat := 9
def SHT_RELA : Nat := 4

/-- One section as seen by the classification loop of `vita_elf_load`
(vita-elf.c lines 373-406): its libelf index (`elf_ndxscn`, always ≥ 1
since `elf_nextscn` starts after the reserved null section), its name,
its header type, and `auxOk`, the abstract outcome of the type-specific
sub-loader (`load_symbols` for SYMTAB, `load_rel_table` for REL) whose
detailed models are given separately in this file. -/
structure ElfScn where
  ndx : Nat
  name : String
  shType : Nat
  auxOk : Bool
  deriving DecidableEq, Repr

/-- The fatal diagnostics the section-classification loop can raise. -/
inductive LoadErr where
  | multipleFstubs
  | multipleVstubs
  | debugInfo
  | symbolsFailed
  | relFailed
  | relaUnsupported
  deriving DecidableEq, Repr

/-- The mutable loader state the section loop threads: the recorded
`fstubs_ndx` / `vstubs_ndx` (0 = not yet seen, as in the `calloc`ed
`vita_elf_t`). -/
structure ScanState where
  fstubs_ndx : Nat := 0
  vstubs_ndx : Nat := 0
  deriving DecidableEq, Repr

/-- `debug_sections` (vita-elf.c line 330). -/
def debug_sections : List String :=
  [".rel.debug_info", ".rel.debug_arange", ".rel.debug_line", ".rel.debug_frame"]

/-- The body of the section loop of `vita_elf_load` for one section
(vita-elf.c lines 373-406): the stub-section classification with its
"Multiple ... sections" checks (`load_stubs` itself always returns 1),
then the debug-section check, then the SYMTAB/REL/RELA dispatch
(`load_rela_table` always fails: "RELA sections currently unsupported"). -/
def processScn (st : ScanState) (s : ElfScn) : Except LoadErr ScanState :=
  let step1 : Except LoadErr ScanState :=
    if s.shType = SHT_PROGBITS ∧ s.name = ".vitalink.fstubs" then
      if st.fstubs_ndx ≠ 0 then .error .multipleFstubs
      else .ok { st with fstubs_ndx := s.ndx }
    else if s.shType = SHT_PROGBITS ∧ s.name = ".vitalink.vstubs" then
      if st.vstubs_ndx ≠ 0 then .error .multipleVstubs
      else .ok { st with vstubs_ndx := s.ndx }
    else .ok st
  match step1 with
  | .error e => .error e
  | .ok st' =>
    if s.name ∈ debug_sections then .error .debugInfo
    else if s.shType = SHT_SYMTAB then
      if s.auxOk then .ok st' else .error .symbolsFailed
    else if s.shType = SHT_REL then
      if s.auxOk then .ok st' else .error .relFailed
    else if s.shType = SHT_RELA then .error .relaUnsupported
    else .ok st'

/-- The whole `while ((scn = elf_nextscn(...)))` loop of `vita_elf_load`:
any `FAILX`/failed sub-loader makes `vita_elf_load` return NULL. -/
def scanSections : ScanState → List ElfScn → Except LoadErr ScanState
  | st, [] => .ok st
  | st, s :: rest =>
    match processScn st s with
    | .error e => .error e
    | .ok st' => scanSections st' rest

/-- Observable outcome of `main` in vita-elf-create.c. -/
structure MainOutcome where
  exitSuccess : Bool
  outputWritten : Bool
  laterStagesRan : Bool
  deriving DecidableEq, Repr

/-- `main` (vita-elf-create.c lines 198-289), with the outcome of each
stage as a parameter: `loadOk` is `vita_elf_load` returning non-NULL,
`importsOk` is `load_imports`, `lookupAll` is the boolean returned by
`vita_elf_lookup_imports`, and `writeOk` abstracts the conjunction of the
external SCE encode/write stages (all `ASSERT`ed, any failure being
`goto failure`).  A resolver miss only downgrades `status`; the encoder
and write stages still run and the output is produced. -/
def vita_elf_create_main (loadOk importsOk lookupAll writeOk : Bool) :
    MainOutcome :=
  if ¬loadOk then ⟨false, false, false⟩
  else if ¬importsOk then ⟨false, false, false⟩
  else
    let status := lookupAll
    if ¬writeOk then ⟨false, false, true⟩
    else ⟨status, true, true⟩

/-- The symbols `lookup_stub_symbols` acts on for stub section `stubs_ndx`:
GLOBAL binding, FUNC or OBJECT type, owned by that section (the three
`continue` filters of vita-elf.c lines 298-303). -/
def stubSectionSymbol (stubs_ndx : Nat) (s : VitaElfSymbol) : Prop :=
  s.binding = STB_GLOBAL ∧ (s.stype = STT_FUNC ∨ s.stype = STT_OBJECT) ∧
    s.shndx = stubs_ndx

/-- The first stub slot with address `v` exists and already carries a
symbol: the state in which `bindStubSymbol` hits the duplicate-symbols
`FAILX`. -/
def firstAddrBound (v : Nat) : List VitaElfStub → Prop
  | [] => False
  | st :: rest => if st.addr = v then st.symbol ≠ none else firstAddrBound v rest

/-- Host placeholder buffers of two segments do not overlap (the load
invariant: each buffer comes from its own `mmap`). -/
def hostDisjoint (s1 s2 : SegmentInfo) : Prop :=
  s1.vaddrTop + s1.memsz ≤ s2.vaddrTop ∨ s2.vaddrTop + s2.memsz ≤ s1.vaddrTop

/-- The containment test of `vita_elf_vaddr_to_host` exactly as the C
computes it (`uint32_t` upper bound). -/
def cContains (seg : SegmentInfo) (a : Nat) : Prop :=
  seg.vaddr ≤ a ∧ a < (seg.vaddr + seg.memsz) % U32

instance (s1 s2 : SegmentInfo) : Decidable (hostDisjoint s1 s2) := by
  unfold hostDisjoint; infer_instance

instance (seg : SegmentInfo) (a : Nat) : Decidable (cContains seg a) := by
  unfold cContains; infer_instance

/-- A PROGBITS section named `.vitalink.fstubs`. -/
def isFstubsScn (s : ElfScn) : Prop :=
  s.shType = SHT_PROGBITS ∧ s.name = ".vitalink.fstubs"

/-- A PROGBITS section named `.vitalink.vstubs`. -/
def isVstubsScn (s : ElfScn) : Prop :=
  s.shType = SHT_PROGBITS ∧ s.name = ".vitalink.vstubs"

/-- C1: the claim's decode of `R_ARM_CALL`/`R_ARM_JUMP24` (26-bit
sign-extension, then adding the offset) disagrees with the code: the code
computes `(((data & 0xFFFFFF) << 2) + addr) << 8 >> 8` on a `uint32_t`, a
logical shift pair that truncates the sum to its low 24 bits instead of
sign-extending the branch field, shown here at `data = 0`,
`offset = 0x1000000`. -/
theorem claimC1_counterexample :
    decode_rel_target 0 R_ARM_CALL 0x1000000 = some 0 ∧
    claimC1_target 0 0x1000000 = 0x1000000 ∧
    decode_rel_target 0 R_ARM_CALL 0x1000000 ≠
      some (claimC1_target 0 0x1000000) := by
  decide

/-- C1 (amended): for every instruction word and every 32-bit offset, the
decoded target of an `R_ARM_CALL`/`R_ARM_JUMP24` REL entry equals the
claim's sign-extended value plus offset truncated to its low 24 bits
(the two agree modulo 2^24; the code zeroes bits 24-31). -/
theorem claimC1_amended (data offset : Nat) :
    decode_rel_target data R_ARM_CALL offset =
      some (claimC1_target data offset % 0x1000000) ∧
    decode_rel_target data R_ARM_JUMP24 offset =
      some (claimC1_target data offset % 0x1000000) := by
  have hx : data &&& 0x00FFFFFF ≤ 0x00FFFFFF := Nat.and_le_right
  have key : ((((data &&& 0x00FFFFFF) <<< 2) + offset) % U32 <<< 8) % U32 >>> 8 =
      claimC1_target data offset % 0x1000000 := by
    unfold claimC1_target claimC1_target.signExtendFromBit25
    generalize data &&& 0x00FFFFFF = y at hx ⊢
    simp only [Nat.shiftLeft_eq, Nat.shiftRight_eq_div_pow, U32] at *
    norm_num at *
    split <;> omega
  constructor <;>
  · unfold decode_rel_target
    norm_num [R_ARM_CALL, R_ARM_JUMP24, R_ARM_NONE, R_ARM_V4BX, R_ARM_ABS32,
      R_ARM_TARGET1, R_ARM_REL32, R_ARM_TARGET2, R_ARM_PREL31, R_ARM_THM_CALL]
    exact key

/-- C1 witness: the amended theorem at `data = 0xFFFFFE` (a backward
branch), `offset = 0x1000`. -/
theorem claimC1_witness :
    decode_rel_target 0xFFFFFE R_ARM_CALL 0x1000 =
      some (claimC1_target 0xFFFFFE 0x1000 % 0x1000000) ∧
    decode_rel_target 0xFFFFFE R_ARM_JUMP24 0x1000 =
      some (claimC1_target 0xFFFFFE 0x1000 % 0x1000000) :=
  claimC1_amended 0xFFFFFE 0x1000

/-- C2: scenario S1 as claimed is false on the code: for the REL entry at
`0x81000` of type `R_ARM_THM_CALL` over bytes `FF F7 FE FF` with symbol
value `0x81001`, the loaded addend is `-4` (`0x80FFC - 0x81000`), not the
claimed `-6`. -/
theorem claimC2_counterexample :
    (load_rel_table [⟨"f", 0x81001, STT_FUNC, STB_GLOBAL, 1⟩] 0x81000
        [0xFF, 0xF7, 0xFE, 0xFF] [⟨0x81000, R_ARM_THM_CALL, 0⟩]).map
        (List.map VitaElfRela.addend) = some [-4] ∧
    (-4 : Int) ≠ -6 := by
  decide

/-- C2 (amended): loading the S1 scenario produces addend `-4`, computed
as the decoded target `0x80FFC` minus the symbol value with the Thumb bit
cleared, `0x81000`. -/
theorem claimC2_amended :
    load_rel_table [⟨"f", 0x81001, STT_FUNC, STB_GLOBAL, 1⟩] 0x81000
        [0xFF, 0xF7, 0xFE, 0xFF] [⟨0x81000, R_ARM_THM_CALL, 0⟩] =
      some [⟨R_ARM_THM_CALL, 0x81000,
            some ⟨"f", 0x81001, STT_FUNC, STB_GLOBAL, 1⟩, -4⟩] ∧
    decode_rel_target (le32At [0xFF, 0xF7, 0xFE, 0xFF] 0) R_ARM_THM_CALL
        0x81000 = some 0x80FFC ∧
    0x81001 &&& 0xFFFFFFFE = 0x81000 ∧
    toInt32 (u32sub 0x80FFC 0x81000) = -4 := by
  decide

/-- C9: the claim (raw subtraction for every guest address) is false at
`vaddr = 0`: the code returns 0 for a NULL guest address, while the raw
`uint32_t` subtraction from a segment based at `0x1000` is `0xFFFFF000`. -/
theorem claimC9_counterexample :
    vita_elf_vaddr_to_segoffset [⟨1, 0x1000, 0x100, 0x5000⟩] 0 0 = 0 ∧
    u32sub 0 0x1000 = 0xFFFFF000 ∧
    vita_elf_vaddr_to_segoffset [⟨1, 0x1000, 0x100, 0x5000⟩] 0 0 ≠
      u32sub 0 0x1000 := by
  decide

/-- C9 (amended): for every nonzero guest address `vaddr` and every
segment index, `vita_elf_vaddr_to_segoffset` returns the raw `uint32_t`
subtraction `vaddr - segments[segndx].vaddr` with no containment check;
`vaddr = 0` is special-cased to offset 0. -/
theorem claimC9_amended (segments : List SegmentInfo) (vaddr segndx : Nat)
    (h : vaddr ≠ 0) :
    vita_elf_vaddr_to_segoffset segments vaddr segndx =
      u32sub vaddr ((segments.getD segndx ⟨0, 0, 0, 0⟩).vaddr) ∧
    vita_elf_vaddr_to_segoffset segments 0 segndx = 0 := by
  unfold vita_elf_vaddr_to_segoffset
  simp [h]

/-- C9 witness: the amended theorem at an out-of-range address `0x20`
below the segment base `0x1000` (no containment check fires). -/
theorem claimC9_witness :
    vita_elf_vaddr_to_segoffset [⟨1, 0x1000, 0x100, 0x5000⟩] 0x20 0 =
      u32sub 0x20 (([⟨1, 0x1000, 0x100, 0x5000⟩] :
        List SegmentInfo).getD 0 ⟨0, 0, 0, 0⟩).vaddr ∧
    vita_elf_vaddr_to_segoffset [⟨1, 0x1000, 0x100, 0x5000⟩] 0 0 = 0 :=
  claimC9_amended [⟨1, 0x1000, 0x100, 0x5000⟩] 0x20 0 (by decide)

/-- C5: evaluation of `lookup_stubs` at the failing input for the
code/claim divergence: the first stub resolves its library (NID 1) and
module (NID 5) but not its target (NID 7); the emitted warning carries
NID 5 — the module NID — where the claim says the target NID 7; the
resolver still continues to the second stub (library NID 9 missing,
warning naming the referencing symbol "foo") and returns `found_all =
false` without aborting, so both failures are reported in one run. -/
theorem claimC5_code_bug :
    lookup_stubs ([0] : List Nat)
        (fun _ nid => if nid = 1 then some (10 : Nat) else none)
        (fun _ nid => if nid = 5 then some (20 : Nat) else none)
        (fun _ _ => (none : Option Nat))
        [⟨0x100, 1, 5, 7, none⟩,
         ⟨0x110, 9, 0, 0, some ⟨"foo", 0x110, STT_FUNC, STB_GLOBAL, 3⟩⟩] =
      (false, [⟨.target, 5, "(unreferenced stub)"⟩, ⟨.library, 9, "foo"⟩]) ∧
    (5 : Nat) ≠ 7 := by
  decide

/-- C6: the exit status of `main` is success exactly when the ELF load,
the import-database load, every write stage and the stub resolution all
succeeded; and when only the stub resolution fails, the exit status is
failure while the later stages still run and the output file is still
written. -/
theorem claimC6 (loadOk importsOk lookupAll writeOk : Bool) :
    ((vita_elf_create_main loadOk importsOk lookupAll writeOk).exitSuccess =
        true ↔
      loadOk = true ∧ importsOk = true ∧ lookupAll = true ∧ writeOk = true) ∧
    (loadOk = true → importsOk = true → writeOk = true → lookupAll = false →
      (vita_elf_create_main loadOk importsOk lookupAll writeOk).exitSuccess =
          false ∧
      (vita_elf_create_main loadOk importsOk lookupAll writeOk).laterStagesRan =
          true ∧
      (vita_elf_create_main loadOk importsOk lookupAll writeOk).outputWritten =
          true) := by
  cases loadOk <;> cases importsOk <;> cases lookupAll <;> cases writeOk <;>
    decide

/-- C6 witness: the theorem at the S5-style instance (everything succeeds
except stub resolution). -/
theorem claimC6_witness :
    (vita_elf_create_main true true false true).exitSuccess = false ∧
    (vita_elf_create_main true true false true).laterStagesRan = true ∧
    (vita_elf_create_main true true false true).outputWritten = true :=
  (claimC6 true true false true).2 rfl rfl rfl rfl

/-- A successful `mapOption` preserves the length: the loaded table holds
one slot per REL entry. -/
theorem mapOption_length {α β : Type} (f : α → Option β) (l : List α) :
    ∀ r : List β, mapOption f l = some r → r.length = l.length := by
  induction l with
  | nil =>
    intro r h
    simp only [mapOption, Option.some.injEq] at h
    subst h
    rfl
  | cons a t ih =>
    intro r h
    simp only [mapOption] at h
    cases hfa : f a with
    | none => rw [hfa] at h; simp at h
    | some b =>
      rw [hfa] at h
      cases hmt : mapOption f t with
      | none => rw [hmt] at h; simp at h
      | some rt =>
        rw [hmt] at h
        simp only [Option.some.injEq] at h
        subst h
        simp [ih rt hmt]

/-- A successful `mapOption` maps the `i`-th input to the `i`-th output:
the loaded slot at an index is `f` of the REL entry at that index. -/
theorem mapOption_get? {α β : Type} (f : α → Option β) (l : List α) :
    ∀ r : List β, mapOption f l = some r →
      ∀ (i : Nat) (a : α), l.get? i = some a → r.get? i = f a := by
  induction l with
  | nil =>
    intro r _ i a ha
    simp at ha
  | cons x t ih =>
    intro r h i a ha
    simp only [mapOption] at h
    cases hfa : f x with
    | none => rw [hfa] at h; simp at h
    | some b =>
      rw [hfa] at h
      cases hmt : mapOption f t with
      | none => rw [hmt] at h; simp at h
      | some rt =>
        rw [hmt] at h
        simp only [Option.some.injEq] at h
        subst h
        cases i with
        | zero =>
          simp only [List.get?] at ha ⊢
          rw [← hfa]
          cases ha
          rfl
        | succ j =>
          simp only [List.get?] at ha ⊢
          exact ih rt hmt j a ha

/-- `processRel` on an entry whose (normalized) type has NORMAL handling
and whose symbol index and target decode succeed: the slot records the
type, the offset, the symbol, and the addend `target - relAdjust t value`
in 32-bit arithmetic. -/
theorem processRel_eq_of_normal (symtab : List VitaElfSymbol) (ta : Nat)
    (tb : List Nat) (rel : GElfRel) (sym : VitaElfSymbol) (target : Nat)
    (hns : normalizeRelType rel.rtype ≠ R_ARM_THM_PC11)
    (hh : get_rel_handling (normalizeRelType rel.rtype) = REL_HANDLE_NORMAL)
    (hsym : symtab.get? rel.rsym = some sym)
    (htarget : decode_rel_target (le32At tb (rel.r_offset - ta))
      (normalizeRelType rel.rtype) rel.r_offset = some target) :
    processRel symtab ta tb rel =
      some ⟨normalizeRelType rel.rtype, rel.r_offset, some sym,
        toInt32 (u32sub target
          (relAdjust (normalizeRelType rel.rtype) sym.value))⟩ := by
  have hni : ¬(get_rel_handling (normalizeRelType rel.rtype) =
      REL_HANDLE_IGNORE) := by
    rw [hh]; decide
  have hnv : ¬(get_rel_handling (normalizeRelType rel.rtype) =
      REL_HANDLE_INVALID) := by
    rw [hh]; decide
  simp only [processRel, if_neg hns, if_neg hni, if_neg hnv, hsym, htarget]

/-- C8: the claim (THM_PC11 entries produce no entry in any loaded table)
is false on the code: a lone `R_ARM_THM_PC11` REL entry still yields a
one-slot table, the pre-allocated slot keeping the recorded type `102`
(only further processing was skipped), rather than the empty table the
claim asks for. -/
theorem claimC8_counterexample :
    load_rel_table [⟨"f", 0x8000, STT_FUNC, STB_GLOBAL, 1⟩] 0x8000
        [0, 0, 0, 0] [⟨0x8000, R_ARM_THM_PC11, 0⟩] =
      some [⟨R_ARM_THM_PC11, 0, none, 0⟩] ∧
    load_rel_table [⟨"f", 0x8000, STT_FUNC, STB_GLOBAL, 1⟩] 0x8000
        [0, 0, 0, 0] [⟨0x8000, R_ARM_THM_PC11, 0⟩] ≠ some [] := by
  decide

/-- C8 (amended): an `R_ARM_THM_PC11` REL entry is skipped by the loader
right after its type is recorded: the table still holds one slot per REL
entry, and the slot at the entry's index stays in its calloc state with
type `R_ARM_THM_PC11`, offset 0, no symbol and addend 0 — no offset is
recorded, no instruction word is fetched and no addend is computed. -/
theorem claimC8_amended (symtab : List VitaElfSymbol) (textAddr : Nat)
    (textBytes : List Nat) (rels : List GElfRel) (table : List VitaElfRela)
    (h : load_rel_table symtab textAddr textBytes rels = some table)
    (i : Nat) (rel : GElfRel) (hg : rels.get? i = some rel)
    (ht : normalizeRelType rel.rtype = R_ARM_THM_PC11) :
    table.length = rels.length ∧
    table.get? i = some ⟨R_ARM_THM_PC11, 0, none, 0⟩ := by
  refine ⟨mapOption_length _ _ _ h, ?_⟩
  rw [mapOption_get? _ _ _ h i rel hg]
  simp only [processRel, ht, ite_true, eq_self_iff_true]

/-- C8 witness: the amended theorem at the one-entry table of the
counterexample input. -/
theorem claimC8_witness :
    ([⟨R_ARM_THM_PC11, 0, none, 0⟩] : List VitaElfRela).length =
      ([⟨0x8000, R_ARM_THM_PC11, 0⟩] : List GElfRel).length ∧
    ([⟨R_ARM_THM_PC11, 0, none, 0⟩] : List VitaElfRela).get? 0 =
      some ⟨R_ARM_THM_PC11, 0, none, 0⟩ :=
  claimC8_amended [⟨"f", 0x8000, STT_FUNC, STB_GLOBAL, 1⟩] 0x8000
    [0, 0, 0, 0] [⟨0x8000, R_ARM_THM_PC11, 0⟩] [⟨R_ARM_THM_PC11, 0, none, 0⟩]
    (by decide) 0 ⟨0x8000, R_ARM_THM_PC11, 0⟩ (by decide) (by decide)

/-- C3: every slot of a loaded REL table whose (normalized) type is a
MOVT flavour has addend `target - (value & 0xFFFF0000)` and every MOVW
flavour has addend `target - (value & 0x0000FFFF)` (32-bit arithmetic,
signed readback); and in the concrete S2 scenario — a MOVW/MOVT pair over
`movw r0,#0xBEEF` / `movt r0,#0xDEAD` referencing one symbol with value
`0xDEADBEEF`, decoded targets `0xBEEF` and `0xDEAD0000` — both loaded
addends are 0. -/
theorem claimC3 :
    (∀ (symtab : List VitaElfSymbol) (textAddr : Nat) (textBytes : List Nat)
        (rels : List GElfRel) (table : List VitaElfRela),
      load_rel_table symtab textAddr textBytes rels = some table →
      ∀ (i : Nat) (rel : GElfRel), rels.get? i = some rel →
      ∀ sym : VitaElfSymbol, symtab.get? rel.rsym = some sym →
      ∀ target : Nat,
        decode_rel_target (le32At textBytes (rel.r_offset - textAddr))
          (normalizeRelType rel.rtype) rel.r_offset = some target →
        ((normalizeRelType rel.rtype = R_ARM_MOVT_ABS ∨
            normalizeRelType rel.rtype = R_ARM_THM_MOVT_ABS) →
          table.get? i = some ⟨normalizeRelType rel.rtype, rel.r_offset,
            some sym, toInt32 (u32sub target (sym.value &&& 0xFFFF0000))⟩) ∧
        ((normalizeRelType rel.rtype = R_ARM_MOVW_ABS_NC ∨
            normalizeRelType rel.rtype = R_ARM_THM_MOVW_ABS_NC) →
          table.get? i = some ⟨normalizeRelType rel.rtype, rel.r_offset,
            some sym, toInt32 (u32sub target (sym.value &&& 0xFFFF))⟩)) ∧
    (load_rel_table [⟨"S", 0xDEADBEEF, STT_OBJECT, STB_GLOBAL, 1⟩] 0x8000
        [0xEF, 0x0E, 0x0B, 0xE3, 0xAD, 0x0E, 0x4D, 0xE3]
        [⟨0x8000, R_ARM_MOVW_ABS_NC, 0⟩, ⟨0x8004, R_ARM_MOVT_ABS, 0⟩] =
      some [⟨R_ARM_MOVW_ABS_NC, 0x8000,
             some ⟨"S", 0xDEADBEEF, STT_OBJECT, STB_GLOBAL, 1⟩, 0⟩,
            ⟨R_ARM_MOVT_ABS, 0x8004,
             some ⟨"S", 0xDEADBEEF, STT_OBJECT, STB_GLOBAL, 1⟩, 0⟩] ∧
     decode_rel_target
        (le32At [0xEF, 0x0E, 0x0B, 0xE3, 0xAD, 0x0E, 0x4D, 0xE3] 0)
        R_ARM_MOVW_ABS_NC 0x8000 = some 0xBEEF ∧
     decode_rel_target
        (le32At [0xEF, 0x0E, 0x0B, 0xE3, 0xAD, 0x0E, 0x4D, 0xE3] 4)
        R_ARM_MOVT_ABS 0x8004 = some 0xDEAD0000) := by
  constructor
  · intro symtab ta tb rels table h i rel hg sym hsym target htarget
    have hget := mapOption_get? _ _ _ h i rel hg
    constructor
    · intro h44
      have hns : normalizeRelType rel.rtype ≠ R_ARM_THM_PC11 := by
        rcases h44 with h44 | h44 <;> rw [h44] <;> decide
      have hh : get_rel_handling (normalizeRelType rel.rtype) =
          REL_HANDLE_NORMAL := by
        rcases h44 with h44 | h44 <;> rw [h44] <;> decide
      rw [hget, processRel_eq_of_normal symtab ta tb rel sym target hns hh
        hsym htarget]
      rcases h44 with h44 | h44 <;> rw [h44] <;> rfl
    · intro h43
      have hns : normalizeRelType rel.rtype ≠ R_ARM_THM_PC11 := by
        rcases h43 with h43 | h43 <;> rw [h43] <;> decide
      have hh : get_rel_handling (normalizeRelType rel.rtype) =
          REL_HANDLE_NORMAL := by
        rcases h43 with h43 | h43 <;> rw [h43] <;> decide
      rw [hget, processRel_eq_of_normal symtab ta tb rel sym target hns hh
        hsym htarget]
      rcases h43 with h43 | h43 <;> rw [h43] <;> rfl
  · decide

/-- C3 witness: the general part of the theorem applied to the MOVW entry
of the S2 scenario. -/
theorem claimC3_witness :
    ([⟨R_ARM_MOVW_ABS_NC, 0x8000,
       some ⟨"S", 0xDEADBEEF, STT_OBJECT, STB_GLOBAL, 1⟩, 0⟩,
      ⟨R_ARM_MOVT_ABS, 0x8004,
       some ⟨"S", 0xDEADBEEF, STT_OBJECT, STB_GLOBAL, 1⟩, 0⟩] :
        List VitaElfRela).get? 0 =
      some ⟨normalizeRelType R_ARM_MOVW_ABS_NC, 0x8000,
        some ⟨"S", 0xDEADBEEF, STT_OBJECT, STB_GLOBAL, 1⟩,
        toInt32 (u32sub 0xBEEF (0xDEADBEEF &&& 0xFFFF))⟩ :=
  (claimC3.1 [⟨"S", 0xDEADBEEF, STT_OBJECT, STB_GLOBAL, 1⟩] 0x8000
    [0xEF, 0x0E, 0x0B, 0xE3, 0xAD, 0x0E, 0x4D, 0xE3]
    [⟨0x8000, R_ARM_MOVW_ABS_NC, 0⟩, ⟨0x8004, R_ARM_MOVT_ABS, 0⟩]
    [⟨R_ARM_MOVW_ABS_NC, 0x8000,
      some ⟨"S", 0xDEADBEEF, STT_OBJECT, STB_GLOBAL, 1⟩, 0⟩,
     ⟨R_ARM_MOVT_ABS, 0x8004,
      some ⟨"S", 0xDEADBEEF, STT_OBJECT, STB_GLOBAL, 1⟩, 0⟩]
    (by decide) 0 ⟨0x8000, R_ARM_MOVW_ABS_NC, 0⟩ (by decide)
    ⟨"S", 0xDEADBEEF, STT_OBJECT, STB_GLOBAL, 1⟩ (by decide)
    0xBEEF (by decide)).2 (Or.inl (by decide))


/-- If the C containment test of `vita_elf_vaddr_to_host` accepts `a`,
then mathematically `vaddr ≤ a < vaddr + memsz` and the segment's guest
range stays below 2^32 (a wrapping range makes the `uint32_t` upper bound
smaller than `vaddr`, so nothing passes the test). -/
theorem cContains_elim (s : SegmentInfo) (hv : s.vaddr < U32)
    (hm : s.memsz < U32) (a : Nat) (hc : cContains s a) :
    s.vaddr ≤ a ∧ a < s.vaddr + s.memsz ∧ s.vaddr + s.memsz < U32 := by
  rcases hc with ⟨h1, h2⟩
  unfold U32 at *
  omega

/-- Conversely, a mathematically contained address of a non-wrapping
segment passes the C containment test. -/
theorem cContains_intro (s : SegmentInfo) (a : Nat) (h1 : s.vaddr ≤ a)
    (h2 : a < s.vaddr + s.memsz) (h3 : s.vaddr + s.memsz < U32) :
    cContains s a := by
  unfold cContains U32 at *
  constructor <;> omega

/-- Core of claim C4: under the load invariants (pairwise disjoint,
non-null host buffers; 32-bit segment fields), an address accepted by
some segment's containment test maps to a nonzero host pointer inside the
matching segment's buffer, and scanning the buffers maps it back to the
same guest address. -/
theorem vaddr_roundtrip_aux (segs : List SegmentInfo)
    (hpair : segs.Pairwise hostDisjoint)
    (hnull : ∀ s ∈ segs, s.memsz ≠ 0 → s.vaddrTop ≠ 0)
    (hwf : ∀ s ∈ segs, s.vaddr < U32 ∧ s.memsz < U32)
    (a : Nat) (hex : ∃ s ∈ segs, cContains s a) :
    ∃ t ∈ segs, cContains t a ∧
      vita_elf_vaddr_to_host segs a = t.vaddrTop + (a - t.vaddr) ∧
      vita_elf_vaddr_to_host segs a ≠ 0 ∧
      host_to_vaddr_scan segs (vita_elf_vaddr_to_host segs a) = a := by
  induction segs with
  | nil =>
    rcases hex with ⟨s, hs, _⟩
    exact absurd hs (List.not_mem_nil s)
  | cons s0 rest ih =>
    rcases List.pairwise_cons.mp hpair with ⟨hdisj0, hpair'⟩
    by_cases h0 : cContains s0 a
    · have hwf0 := hwf s0 (List.mem_cons_self s0 rest)
      have helim := cContains_elim s0 hwf0.1 hwf0.2 a h0
      have hm0 : s0.memsz ≠ 0 := by omega
      have htop0 : s0.vaddrTop ≠ 0 := hnull s0 (List.mem_cons_self s0 rest) hm0
      have hvth : vita_elf_vaddr_to_host (s0 :: rest) a =
          s0.vaddrTop + (a - s0.vaddr) := by
        simp only [vita_elf_vaddr_to_host]
        rw [if_pos (show s0.vaddr ≤ a ∧ a < (s0.vaddr + s0.memsz) % U32 from h0)]
      refine ⟨s0, List.mem_cons_self s0 rest, h0, hvth, ?_, ?_⟩
      · rw [hvth]; omega
      · rw [hvth]
        simp only [host_to_vaddr_scan]
        rw [if_pos (show s0.vaddrTop ≤ s0.vaddrTop + (a - s0.vaddr) ∧
            s0.vaddrTop + (a - s0.vaddr) < s0.vaddrTop + s0.memsz by omega)]
        unfold U32 at *
        omega
    · have hvth : vita_elf_vaddr_to_host (s0 :: rest) a =
          vita_elf_vaddr_to_host rest a := by
        simp only [vita_elf_vaddr_to_host]
        rw [if_neg (show ¬(s0.vaddr ≤ a ∧ a < (s0.vaddr + s0.memsz) % U32)
          from h0)]
      rcases hex with ⟨s, hs, hc⟩
      rcases List.mem_cons.mp hs with rfl | hsrest
      · exact absurd hc h0
      · obtain ⟨t, htrest, hct, heq, hne, hscan⟩ := ih hpair'
          (fun x hx => hnull x (List.mem_cons_of_mem s0 hx))
          (fun x hx => hwf x (List.mem_cons_of_mem s0 hx))
          ⟨s, hsrest, hc⟩
        have hwft := hwf t (List.mem_cons_of_mem s0 htrest)
        have helimt := cContains_elim t hwft.1 hwft.2 a hct
        have hdisj := hdisj0 t htrest
        refine ⟨t, List.mem_cons_of_mem s0 htrest, hct, hvth ▸ heq,
          hvth ▸ hne, ?_⟩
        rw [hvth, heq]
        simp only [host_to_vaddr_scan]
        rw [if_neg (show ¬(s0.vaddrTop ≤ t.vaddrTop + (a - t.vaddr) ∧
            t.vaddrTop + (a - t.vaddr) < s0.vaddrTop + s0.memsz) by
          rcases hdisj with hd | hd <;> omega)]
        rw [← heq]
        exact hscan

/-- One unfolding step of `lookup_stub_symbols` on a nonempty symbol
list. -/
theorem lookup_cons (ty ndx : Nat) (stubs : List VitaElfStub)
    (sym : VitaElfSymbol) (rest : List VitaElfSymbol) :
    lookup_stub_symbols ty ndx stubs (sym :: rest) =
      if sym.binding ≠ STB_GLOBAL then
        lookup_stub_symbols ty ndx stubs rest
      else if sym.stype ≠ STT_FUNC ∧ sym.stype ≠ STT_OBJECT then
        lookup_stub_symbols ty ndx stubs rest
      else if sym.shndx ≠ ndx then
        lookup_stub_symbols ty ndx stubs rest
      else if sym.stype ≠ ty then
        none
      else
        match bindStubSymbol stubs sym with
        | none => none
        | some stubs' => lookup_stub_symbols ty ndx stubs' rest := rfl

/-- Binding a symbol to a stub slot never changes the slot addresses. -/
theorem bindStub_addrs (sym : VitaElfSymbol) :
    ∀ stubs stubs' : List VitaElfStub, bindStubSymbol stubs sym = some stubs' →
      stubs'.map VitaElfStub.addr = stubs.map VitaElfStub.addr := by
  intro stubs
  induction stubs with
  | nil => intro stubs' h; exact Option.noConfusion h
  | cons st rest ih =>
    intro stubs' h
    simp only [bindStubSymbol] at h
    by_cases ha : st.addr = sym.value
    · rw [if_pos ha] at h
      by_cases hb : st.symbol = none
      · rw [if_neg (not_not_intro hb)] at h
        cases h
        rfl
      · rw [if_pos hb] at h
        exact Option.noConfusion h
    · rw [if_neg ha] at h
      cases hrec : bindStubSymbol rest sym with
      | none => rw [hrec] at h; exact Option.noConfusion h
      | some r =>
        rw [hrec] at h
        cases h
        simp [ih r hrec]

/-- If no stub slot has the symbol's value as address, the inner scan
fails (`stub == num_stubs`). -/
theorem bindStub_none_of_no_addr (sym : VitaElfSymbol) :
    ∀ stubs : List VitaElfStub, (∀ st ∈ stubs, st.addr ≠ sym.value) →
      bindStubSymbol stubs sym = none := by
  intro stubs
  induction stubs with
  | nil => intro _; rfl
  | cons st rest ih =>
    intro hno
    simp only [bindStubSymbol]
    rw [if_neg (hno st (List.mem_cons_self st rest)),
      ih (fun x hx => hno x (List.mem_cons_of_mem st hx))]
    rfl

/-- A slot already carrying a symbol survives a successful bind
unchanged. -/
theorem bindStub_mem_bound (sym : VitaElfSymbol) :
    ∀ stubs stubs' : List VitaElfStub, bindStubSymbol stubs sym = some stubs' →
      ∀ st ∈ stubs, st.symbol ≠ none → st ∈ stubs' := by
  intro stubs
  induction stubs with
  | nil => intro stubs' h; exact Option.noConfusion h
  | cons st0 rest ih =>
    intro stubs' h st hst hbound
    simp only [bindStubSymbol] at h
    by_cases ha : st0.addr = sym.value
    · rw [if_pos ha] at h
      by_cases hb : st0.symbol = none
      · rw [if_neg (not_not_intro hb)] at h
        cases h
        rcases List.mem_cons.mp hst with rfl | hst'
        · exact absurd hb hbound
        · exact List.mem_cons_of_mem _ hst'
      · rw [if_pos hb] at h
        exact Option.noConfusion h
    · rw [if_neg ha] at h
      cases hrec : bindStubSymbol rest sym with
      | none => rw [hrec] at h; exact Option.noConfusion h
      | some r =>
        rw [hrec] at h
        cases h
        rcases List.mem_cons.mp hst with rfl | hst'
        · exact List.mem_cons_self st r
        · exact List.mem_cons_of_mem _ (ih r hrec st hst' hbound)

/-- A successful bind produces a slot with the symbol's value as address
carrying exactly that symbol. -/
theorem bindStub_creates (sym : VitaElfSymbol) :
    ∀ stubs stubs' : List VitaElfStub, bindStubSymbol stubs sym = some stubs' →
      ∃ st ∈ stubs', st.addr = sym.value ∧ st.symbol = some sym := by
  intro stubs
  induction stubs with
  | nil => intro stubs' h; exact Option.noConfusion h
  | cons st0 rest ih =>
    intro stubs' h
    simp only [bindStubSymbol] at h
    by_cases ha : st0.addr = sym.value
    · rw [if_pos ha] at h
      by_cases hb : st0.symbol = none
      · rw [if_neg (not_not_intro hb)] at h
        cases h
        exact ⟨{ st0 with symbol := some sym }, List.mem_cons_self _ _, ha, rfl⟩
      · rw [if_pos hb] at h
        exact Option.noConfusion h
    · rw [if_neg ha] at h
      cases hrec : bindStubSymbol rest sym with
      | none => rw [hrec] at h; exact Option.noConfusion h
      | some r =>
        rw [hrec] at h
        cases h
        obtain ⟨st, hst, h1, h2⟩ := ih r hrec
        exact ⟨st, List.mem_cons_of_mem _ hst, h1, h2⟩

/-- If the first slot with the symbol's value is already bound, the scan
hits the duplicate-symbols `FAILX`. -/
theorem bindStub_fail_of_firstBound (sym : VitaElfSymbol) :
    ∀ stubs : List VitaElfStub, firstAddrBound sym.value stubs →
      bindStubSymbol stubs sym = none := by
  intro stubs
  induction stubs with
  | nil => intro h; exact absurd h id
  | cons st rest ih =>
    intro h
    simp only [firstAddrBound] at h
    simp only [bindStubSymbol]
    by_cases ha : st.addr = sym.value
    · rw [if_pos ha] at h
      rw [if_pos ha, if_pos h]
    · rw [if_neg ha] at h
      rw [if_neg ha, ih h]
      rfl

/-- A successful bind preserves `firstAddrBound` for every value. -/
theorem bindStub_preserves_firstBound (sym : VitaElfSymbol) (v : Nat) :
    ∀ stubs stubs' : List VitaElfStub, bindStubSymbol stubs sym = some stubs' →
      firstAddrBound v stubs → firstAddrBound v stubs' := by
  intro stubs
  induction stubs with
  | nil => intro stubs' h; exact Option.noConfusion h
  | cons st rest ih =>
    intro stubs' h hfb
    simp only [firstAddrBound] at hfb
    simp only [bindStubSymbol] at h
    by_cases ha : st.addr = sym.value
    · rw [if_pos ha] at h
      by_cases hb : st.symbol = none
      · rw [if_neg (not_not_intro hb)] at h
        cases h
        simp only [firstAddrBound]
        by_cases hv : st.addr = v
        · rw [if_pos hv]
          simp
        · rw [if_neg hv] at hfb ⊢
          exact hfb
      · rw [if_pos hb] at h
        exact Option.noConfusion h
    · rw [if_neg ha] at h
      cases hrec : bindStubSymbol rest sym with
      | none => rw [hrec] at h; exact Option.noConfusion h
      | some r =>
        rw [hrec] at h
        cases h
        simp only [firstAddrBound]
        by_cases hv : st.addr = v
        · rw [if_pos hv] at hfb ⊢
          exact hfb
        · rw [if_neg hv] at hfb ⊢
          exact ih r hrec hfb

/-- After a successful bind, the first slot with the symbol's value is
bound. -/
theorem bindStub_gives_firstBound (sym : VitaElfSymbol) :
    ∀ stubs stubs' : List VitaElfStub, bindStubSymbol stubs sym = some stubs' →
      firstAddrBound sym.value stubs' := by
  intro stubs
  induction stubs with
  | nil => intro stubs' h; exact Option.noConfusion h
  | cons st rest ih =>
    intro stubs' h
    simp only [bindStubSymbol] at h
    by_cases ha : st.addr = sym.value
    · rw [if_pos ha] at h
      by_cases hb : st.symbol = none
      · rw [if_neg (not_not_intro hb)] at h
        cases h
        simp only [firstAddrBound]
        rw [if_pos ha]
        simp
      · rw [if_pos hb] at h
        exact Option.noConfusion h
    · rw [if_neg ha] at h
      cases hrec : bindStubSymbol rest sym with
      | none => rw [hrec] at h; exact Option.noConfusion h
      | some r =>
        rw [hrec] at h
        cases h
        simp only [firstAddrBound]
        rw [if_neg ha]
        exact ih r hrec

/-- Addresses carry over along an address-preserving rewrite of the stub
list: if no original slot has address `v`, no rewritten slot does. -/
theorem no_addr_transfer (v : Nat) (stubs stubs2 : List VitaElfStub)
    (hmap : stubs2.map VitaElfStub.addr = stubs.map VitaElfStub.addr)
    (hno : ∀ st ∈ stubs, st.addr ≠ v) : ∀ st ∈ stubs2, st.addr ≠ v := by
  intro st hst
  have hmem : st.addr ∈ stubs2.map VitaElfStub.addr :=
    List.mem_map_of_mem _ hst
  rw [hmap] at hmem
  obtain ⟨st0, hst0, heq⟩ := List.mem_map.mp hmem
  rw [← heq]
  exact hno st0 hst0

/-- C4: the claim is false as stated because the C containment test adds
`vaddr + memsz` in `uint32_t` arithmetic: for a segment whose guest range
wraps the 32-bit address space (`vaddr = 0xFFFFFFF0`, `memsz = 0x20`),
the address `0xFFFFFFF8` lies in the claimed range yet `vaddr_to_host`
rejects it (returns NULL) and the roundtrip yields 0, not the address. -/
theorem claimC4_counterexample :
    (0xFFFFFFF0 : Nat) ≤ 0xFFFFFFF8 ∧
    (0xFFFFFFF8 : Nat) < 0xFFFFFFF0 + 0x20 ∧
    vita_elf_host_to_vaddr [⟨1, 0xFFFFFFF0, 0x20, 0x1000⟩]
      (vita_elf_vaddr_to_host [⟨1, 0xFFFFFFF0, 0x20, 0x1000⟩] 0xFFFFFFF8) = 0 ∧
    (0 : Nat) ≠ 0xFFFFFFF8 := by
  decide

/-- C4 (amended): for every loaded context whose segments have pairwise
disjoint, non-null host buffers (the load invariant) and 32-bit fields,
every segment whose guest range does not reach the top of the 32-bit
address space, and every address in that segment's guest range, mapping
to the host buffer and back is the identity. -/
theorem claimC4_amended (segs : List SegmentInfo)
    (hpair : segs.Pairwise hostDisjoint)
    (hnull : ∀ s ∈ segs, s.memsz ≠ 0 → s.vaddrTop ≠ 0)
    (hwf : ∀ s ∈ segs, s.vaddr < U32 ∧ s.memsz < U32)
    (s : SegmentInfo) (hs : s ∈ segs) (a : Nat)
    (h1 : s.vaddr ≤ a) (h2 : a < s.vaddr + s.memsz)
    (h3 : s.vaddr + s.memsz < U32) :
    vita_elf_host_to_vaddr segs (vita_elf_vaddr_to_host segs a) = a := by
  obtain ⟨t, _, _, _, hne, hscan⟩ := vaddr_roundtrip_aux segs hpair hnull hwf
    a ⟨s, hs, cContains_intro s a h1 h2 h3⟩
  unfold vita_elf_host_to_vaddr
  rw [if_neg hne]
  exact hscan

/-- C4 witness: the amended theorem on a two-segment context at an
address inside the second segment. -/
theorem claimC4_witness :
    vita_elf_host_to_vaddr
      [⟨1, 0x81000000, 0x100, 0x1000⟩, ⟨1, 0x85000000, 0x100, 0x2000⟩]
      (vita_elf_vaddr_to_host
        [⟨1, 0x81000000, 0x100, 0x1000⟩, ⟨1, 0x85000000, 0x100, 0x2000⟩]
        0x85000010) = 0x85000010 :=
  claimC4_amended
    [⟨1, 0x81000000, 0x100, 0x1000⟩, ⟨1, 0x85000000, 0x100, 0x2000⟩]
    (by decide) (by decide) (by decide)
    ⟨1, 0x85000000, 0x100, 0x2000⟩ (by decide) 0x85000010
    (by decide) (by decide) (by decide)

/-- A successful symbol walk never unbinds a slot: every slot already
carrying a symbol is still in the final stub list. -/
theorem lookup_preserves_mem_bound (ty ndx : Nat) :
    ∀ (syms : List VitaElfSymbol) (stubs stubs' : List VitaElfStub),
      lookup_stub_symbols ty ndx stubs syms = some stubs' →
      ∀ st ∈ stubs, st.symbol ≠ none → st ∈ stubs' := by
  intro syms
  induction syms with
  | nil =>
    intro stubs stubs' h st hst hb
    cases h
    exact hst
  | cons sym rest ih =>
    intro stubs stubs' h st hst hb
    rw [lookup_cons] at h
    by_cases h1 : sym.binding ≠ STB_GLOBAL
    · rw [if_pos h1] at h; exact ih stubs stubs' h st hst hb
    rw [if_neg h1] at h
    by_cases h2 : sym.stype ≠ STT_FUNC ∧ sym.stype ≠ STT_OBJECT
    · rw [if_pos h2] at h; exact ih stubs stubs' h st hst hb
    rw [if_neg h2] at h
    by_cases h3 : sym.shndx ≠ ndx
    · rw [if_pos h3] at h; exact ih stubs stubs' h st hst hb
    rw [if_neg h3] at h
    by_cases h4 : sym.stype ≠ ty
    · rw [if_pos h4] at h; exact Option.noConfusion h
    rw [if_neg h4] at h
    cases hbind : bindStubSymbol stubs sym with
    | none => rw [hbind] at h; exact Option.noConfusion h
    | some stubs2 =>
      rw [hbind] at h
      exact ih stubs2 stubs' h st (bindStub_mem_bound sym stubs stubs2 hbind st hst hb) hb

/-- Claim C7 part: a GLOBAL FUNC/OBJECT symbol of the stub section whose
value matches no slot address makes the walk fail. -/
theorem lookup_none_of_no_addr (ty ndx : Nat) :
    ∀ (syms : List VitaElfSymbol) (stubs : List VitaElfStub)
      (s : VitaElfSymbol), s ∈ syms → stubSectionSymbol ndx s →
      (∀ st ∈ stubs, st.addr ≠ s.value) →
      lookup_stub_symbols ty ndx stubs syms = none := by
  intro syms
  induction syms with
  | nil =>
    intro stubs s hs
    exact absurd hs (List.not_mem_nil s)
  | cons sym rest ih =>
    intro stubs s hs hrel hno
    rw [lookup_cons]
    rcases List.mem_cons.mp hs with rfl | hs'
    · obtain ⟨hb, hft, hsh⟩ := hrel
      rw [if_neg (not_not_intro hb),
        if_neg (show ¬(s.stype ≠ STT_FUNC ∧ s.stype ≠ STT_OBJECT) by
          rcases hft with h' | h' <;> simp [h']),
        if_neg (not_not_intro hsh)]
      by_cases hty : s.stype ≠ ty
      · rw [if_pos hty]
      · rw [if_neg hty, bindStub_none_of_no_addr s stubs hno]
    · by_cases h1 : sym.binding ≠ STB_GLOBAL
      · rw [if_pos h1]; exact ih stubs s hs' hrel hno
      rw [if_neg h1]
      by_cases h2 : sym.stype ≠ STT_FUNC ∧ sym.stype ≠ STT_OBJECT
      · rw [if_pos h2]; exact ih stubs s hs' hrel hno
      rw [if_neg h2]
      by_cases h3 : sym.shndx ≠ ndx
      · rw [if_pos h3]; exact ih stubs s hs' hrel hno
      rw [if_neg h3]
      by_cases h4 : sym.stype ≠ ty
      · rw [if_pos h4]
      rw [if_neg h4]
      cases hbind : bindStubSymbol stubs sym with
      | none => rfl
      | some stubs2 =>
        exact ih stubs2 s hs' hrel
          (no_addr_transfer s.value stubs stubs2
            (bindStub_addrs sym stubs stubs2 hbind) hno)

/-- Claim C7 part: a GLOBAL FUNC/OBJECT symbol of the stub section whose
first matching slot is already bound makes the walk fail. -/
theorem lookup_none_of_firstBound (ty ndx : Nat) :
    ∀ (syms : List VitaElfSymbol) (stubs : List VitaElfStub)
      (s : VitaElfSymbol), s ∈ syms → stubSectionSymbol ndx s →
      firstAddrBound s.value stubs →
      lookup_stub_symbols ty ndx stubs syms = none := by
  intro syms
  induction syms with
  | nil =>
    intro stubs s hs
    exact absurd hs (List.not_mem_nil s)
  | cons sym rest ih =>
    intro stubs s hs hrel hfb
    rw [lookup_cons]
    rcases List.mem_cons.mp hs with rfl | hs'
    · obtain ⟨hb, hft, hsh⟩ := hrel
      rw [if_neg (not_not_intro hb),
        if_neg (show ¬(s.stype ≠ STT_FUNC ∧ s.stype ≠ STT_OBJECT) by
          rcases hft with h' | h' <;> simp [h']),
        if_neg (not_not_intro hsh)]
      by_cases hty : s.stype ≠ ty
      · rw [if_pos hty]
      · rw [if_neg hty, bindStub_fail_of_firstBound s stubs hfb]
    · by_cases h1 : sym.binding ≠ STB_GLOBAL
      · rw [if_pos h1]; exact ih stubs s hs' hrel hfb
      rw [if_neg h1]
      by_cases h2 : sym.stype ≠ STT_FUNC ∧ sym.stype ≠ STT_OBJECT
      · rw [if_pos h2]; exact ih stubs s hs' hrel hfb
      rw [if_neg h2]
      by_cases h3 : sym.shndx ≠ ndx
      · rw [if_pos h3]; exact ih stubs s hs' hrel hfb
      rw [if_neg h3]
      by_cases h4 : sym.stype ≠ ty
      · rw [if_pos h4]
      rw [if_neg h4]
      cases hbind : bindStubSymbol stubs sym with
      | none => rfl
      | some stubs2 =>
        exact ih stubs2 s hs' hrel
          (bindStub_preserves_firstBound sym s.value stubs stubs2 hbind hfb)

/-- Claim C7 part: on success every GLOBAL FUNC/OBJECT symbol of the stub
section ends up bound to a slot whose address is the symbol's value. -/
theorem lookup_binds (ty ndx : Nat) :
    ∀ (syms : List VitaElfSymbol) (stubs stubs' : List VitaElfStub),
      lookup_stub_symbols ty ndx stubs syms = some stubs' →
      ∀ s ∈ syms, stubSectionSymbol ndx s →
      ∃ st ∈ stubs', st.addr = s.value ∧ st.symbol = some s := by
  intro syms
  induction syms with
  | nil =>
    intro stubs stubs' h s hs
    exact absurd hs (List.not_mem_nil s)
  | cons sym rest ih =>
    intro stubs stubs' h s hs hrel
    rw [lookup_cons] at h
    rcases List.mem_cons.mp hs with rfl | hs'
    · obtain ⟨hb, hft, hsh⟩ := hrel
      rw [if_neg (not_not_intro hb),
        if_neg (show ¬(s.stype ≠ STT_FUNC ∧ s.stype ≠ STT_OBJECT) by
          rcases hft with h' | h' <;> simp [h']),
        if_neg (not_not_intro hsh)] at h
      by_cases hty : s.stype ≠ ty
      · rw [if_pos hty] at h; exact Option.noConfusion h
      rw [if_neg hty] at h
      cases hbind : bindStubSymbol stubs s with
      | none => rw [hbind] at h; exact Option.noConfusion h
      | some stubs2 =>
        rw [hbind] at h
        obtain ⟨st, hst2, haddr, hsymb⟩ := bindStub_creates s stubs stubs2 hbind
        refine ⟨st, ?_, haddr, hsymb⟩
        exact lookup_preserves_mem_bound ty ndx rest stubs2 stubs' h st hst2
          (by rw [hsymb]; simp)
    · by_cases h1 : sym.binding ≠ STB_GLOBAL
      · rw [if_pos h1] at h; exact ih stubs stubs' h s hs' hrel
      rw [if_neg h1] at h
      by_cases h2 : sym.stype ≠ STT_FUNC ∧ sym.stype ≠ STT_OBJECT
      · rw [if_pos h2] at h; exact ih stubs stubs' h s hs' hrel
      rw [if_neg h2] at h
      by_cases h3 : sym.shndx ≠ ndx
      · rw [if_pos h3] at h; exact ih stubs stubs' h s hs' hrel
      rw [if_neg h3] at h
      by_cases h4 : sym.stype ≠ ty
      · rw [if_pos h4] at h; exact Option.noConfusion h
      rw [if_neg h4] at h
      cases hbind : bindStubSymbol stubs sym with
      | none => rw [hbind] at h; exact Option.noConfusion h
      | some stubs2 =>
        rw [hbind] at h
        exact ih stubs2 stubs' h s hs' hrel

/-- Claim C7 part: two stub-section symbols with the same value make the
walk fail, wherever they sit in the symbol table. -/
theorem lookup_dup (ty ndx : Nat) :
    ∀ (l1 : List VitaElfSymbol) (s1 : VitaElfSymbol) (l2 : List VitaElfSymbol)
      (s2 : VitaElfSymbol) (l3 : List VitaElfSymbol) (stubs : List VitaElfStub),
      stubSectionSymbol ndx s1 → stubSectionSymbol ndx s2 →
      s1.value = s2.value →
      lookup_stub_symbols ty ndx stubs (l1 ++ s1 :: l2 ++ s2 :: l3) = none := by
  intro l1
  induction l1 with
  | nil =>
    intro s1 l2 s2 l3 stubs h1 h2 hv
    simp only [List.nil_append, List.cons_append]
    rw [lookup_cons]
    obtain ⟨hb, hft, hsh⟩ := h1
    rw [if_neg (not_not_intro hb),
      if_neg (show ¬(s1.stype ≠ STT_FUNC ∧ s1.stype ≠ STT_OBJECT) by
        rcases hft with h' | h' <;> simp [h']),
      if_neg (not_not_intro hsh)]
    by_cases hty : s1.stype ≠ ty
    · rw [if_pos hty]
    rw [if_neg hty]
    cases hbind : bindStubSymbol stubs s1 with
    | none => rfl
    | some stubs2 =>
      have hfb : firstAddrBound s2.value stubs2 :=
        hv ▸ bindStub_gives_firstBound s1 stubs stubs2 hbind
      exact lookup_none_of_firstBound ty ndx (l2 ++ s2 :: l3) stubs2 s2
        (List.mem_append_right l2 (List.mem_cons_self s2 l3)) h2 hfb
  | cons sym l1' ih =>
    intro s1 l2 s2 l3 stubs h1 h2 hv
    simp only [List.cons_append]
    rw [lookup_cons]
    by_cases ha : sym.binding ≠ STB_GLOBAL
    · rw [if_pos ha]; exact ih s1 l2 s2 l3 stubs h1 h2 hv
    rw [if_neg ha]
    by_cases hb : sym.stype ≠ STT_FUNC ∧ sym.stype ≠ STT_OBJECT
    · rw [if_pos hb]; exact ih s1 l2 s2 l3 stubs h1 h2 hv
    rw [if_neg hb]
    by_cases hc : sym.shndx ≠ ndx
    · rw [if_pos hc]; exact ih s1 l2 s2 l3 stubs h1 h2 hv
    rw [if_neg hc]
    by_cases hd : sym.stype ≠ ty
    · rw [if_pos hd]
    rw [if_neg hd]
    cases hbind : bindStubSymbol stubs sym with
    | none => rfl
    | some stubs2 => exact ih s1 l2 s2 l3 stubs2 h1 h2 hv

/-- C7: the stub-symbol linker binds every GLOBAL FUNC/OBJECT symbol of a
stub section to a stub slot whose address is the symbol's value; it fails
fatally when no slot has that address and when the (first) matching slot
is already bound; hence two stub-section symbols with identical value make
the load fail, and a failed load leaves the output unwritten and the exit
status failing. -/
theorem claimC7 (ty ndx : Nat) (stubs : List VitaElfStub)
    (syms : List VitaElfSymbol) :
    (∀ stubs', lookup_stub_symbols ty ndx stubs syms = some stubs' →
      ∀ s ∈ syms, stubSectionSymbol ndx s →
        ∃ st ∈ stubs', st.addr = s.value ∧ st.symbol = some s) ∧
    (∀ s ∈ syms, stubSectionSymbol ndx s → (∀ st ∈ stubs, st.addr ≠ s.value) →
      lookup_stub_symbols ty ndx stubs syms = none) ∧
    (∀ s ∈ syms, stubSectionSymbol ndx s → firstAddrBound s.value stubs →
      lookup_stub_symbols ty ndx stubs syms = none) ∧
    (∀ (l1 : List VitaElfSymbol) (s1 : VitaElfSymbol)
       (l2 : List VitaElfSymbol) (s2 : VitaElfSymbol)
       (l3 : List VitaElfSymbol),
      syms = l1 ++ s1 :: l2 ++ s2 :: l3 →
      stubSectionSymbol ndx s1 → stubSectionSymbol ndx s2 →
      s1.value = s2.value →
      lookup_stub_symbols ty ndx stubs syms = none ∧
      ∀ importsOk lookupAll writeOk,
        (vita_elf_create_main false importsOk lookupAll writeOk).outputWritten
          = false ∧
        (vita_elf_create_main false importsOk lookupAll writeOk).exitSuccess
          = false) := by
  refine ⟨?_, ?_, ?_, ?_⟩
  · intro stubs' h s hs hrel
    exact lookup_binds ty ndx syms stubs stubs' h s hs hrel
  · intro s hs hrel hno
    exact lookup_none_of_no_addr ty ndx syms stubs s hs hrel hno
  · intro s hs hrel hfb
    exact lookup_none_of_firstBound ty ndx syms stubs s hs hrel hfb
  · intro l1 s1 l2 s2 l3 hsplit h1 h2 hv
    refine ⟨hsplit ▸ lookup_dup ty ndx l1 s1 l2 s2 l3 stubs h1 h2 hv, ?_⟩
    intro importsOk lookupAll writeOk
    exact ⟨rfl, rfl⟩

/-- C7 witness: scenario S6 — two GLOBAL FUNC symbols with the same value
in the fstubs section (index 3) make the symbol walk fail, and a failed
load writes no output. -/
theorem claimC7_witness :
    lookup_stub_symbols STT_FUNC 3 [⟨0x100, 0, 0, 0, none⟩]
      [⟨"a", 0x100, STT_FUNC, STB_GLOBAL, 3⟩,
       ⟨"b", 0x100, STT_FUNC, STB_GLOBAL, 3⟩] = none ∧
    (vita_elf_create_main false true false true).outputWritten = false ∧
    (vita_elf_create_main false true false true).exitSuccess = false := by
  have h := (claimC7 STT_FUNC 3 [⟨0x100, 0, 0, 0, none⟩]
    [⟨"a", 0x100, STT_FUNC, STB_GLOBAL, 3⟩,
     ⟨"b", 0x100, STT_FUNC, STB_GLOBAL, 3⟩]).2.2.2
    [] ⟨"a", 0x100, STT_FUNC, STB_GLOBAL, 3⟩
    [] ⟨"b", 0x100, STT_FUNC, STB_GLOBAL, 3⟩ [] rfl
    ⟨rfl, Or.inl rfl, rfl⟩ ⟨rfl, Or.inl rfl, rfl⟩ rfl
  exact ⟨h.1, (h.2 true false true).1, (h.2 true false true).2⟩

/-- The section loop over a concatenation: a failure in the first part
propagates, otherwise the second part continues from the reached state. -/
theorem scanSections_append (l1 l2 : List ElfScn) :
    ∀ st, scanSections st (l1 ++ l2) =
      match scanSections st l1 with
      | .ok st' => scanSections st' l2
      | .error e => .error e := by
  induction l1 with
  | nil => intro st; rfl
  | cons s t ih =>
    intro st
    simp only [List.cons_append, scanSections]
    cases hp : processScn st s with
    | error e => rfl
    | ok st' => exact ih st'

/-- On a `.vitalink.fstubs` PROGBITS section, `processScn` is exactly the
duplicate check followed by recording the section index. -/
theorem processScn_fstubs_eq (st : ScanState) (s : ElfScn)
    (h : isFstubsScn s) :
    processScn st s = if st.fstubs_ndx ≠ 0 then .error .multipleFstubs
      else .ok { st with fstubs_ndx := s.ndx } := by
  rcases h with ⟨ht, hn⟩
  have hdbg : (".vitalink.fstubs" : String) ∉ debug_sections := by decide
  have h1 : SHT_PROGBITS ≠ SHT_SYMTAB := by decide
  have h2 : SHT_PROGBITS ≠ SHT_REL := by decide
  have h3 : SHT_PROGBITS ≠ SHT_RELA := by decide
  by_cases hf : st.fstubs_ndx ≠ 0
  · simp [processScn, ht, hn, hf, hdbg, h1, h2, h3]
  · simp [processScn, ht, hn, hf, hdbg, h1, h2, h3]

/-- On a `.vitalink.vstubs` PROGBITS section, `processScn` is exactly the
duplicate check followed by recording the section index. -/
theorem processScn_vstubs_eq (st : ScanState) (s : ElfScn)
    (h : isVstubsScn s) :
    processScn st s = if st.vstubs_ndx ≠ 0 then .error .multipleVstubs
      else .ok { st with vstubs_ndx := s.ndx } := by
  rcases h with ⟨ht, hn⟩
  have hdbg : (".vitalink.vstubs" : String) ∉ debug_sections := by decide
  have hne : (".vitalink.vstubs" : String) ≠ ".vitalink.fstubs" := by decide
  have h1 : SHT_PROGBITS ≠ SHT_SYMTAB := by decide
  have h2 : SHT_PROGBITS ≠ SHT_REL := by decide
  have h3 : SHT_PROGBITS ≠ SHT_RELA := by decide
  by_cases hv : st.vstubs_ndx ≠ 0
  · simp [processScn, ht, hn, hv, hdbg, hne, h1, h2, h3]
  · simp [processScn, ht, hn, hv, hdbg, hne, h1, h2, h3]

/-- A successfully processed section never clears a recorded
`fstubs_ndx`. -/
theorem processScn_fndx_mono (st st' : ScanState) (s : ElfScn)
    (h : processScn st s = .ok st') (hf : st.fstubs_ndx ≠ 0) :
    st'.fstubs_ndx ≠ 0 := by
  simp only [processScn] at h
  by_cases c1 : s.shType = SHT_PROGBITS ∧ s.name = ".vitalink.fstubs"
  · rw [if_pos c1, if_pos hf] at h
    exact Except.noConfusion h
  · rw [if_neg c1] at h
    by_cases c2 : s.shType = SHT_PROGBITS ∧ s.name = ".vitalink.vstubs"
    · rw [if_pos c2] at h
      by_cases cv : st.vstubs_ndx ≠ 0
      · rw [if_pos cv] at h
        exact Except.noConfusion h
      · rw [if_neg cv] at h
        split_ifs at h
        all_goals first
        | exact Except.noConfusion h
        | (cases h; exact hf)
    · rw [if_neg c2] at h
      split_ifs at h
      all_goals first
      | exact Except.noConfusion h
      | (cases h; exact hf)

/-- A successfully processed section never clears a recorded
`vstubs_ndx`. -/
theorem processScn_vndx_mono (st st' : ScanState) (s : ElfScn)
    (h : processScn st s = .ok st') (hv : st.vstubs_ndx ≠ 0) :
    st'.vstubs_ndx ≠ 0 := by
  simp only [processScn] at h
  by_cases c1 : s.shType = SHT_PROGBITS ∧ s.name = ".vitalink.fstubs"
  · rw [if_pos c1] at h
    by_cases cf : st.fstubs_ndx ≠ 0
    · rw [if_pos cf] at h
      exact Except.noConfusion h
    · rw [if_neg cf] at h
      split_ifs at h
      all_goals first
      | exact Except.noConfusion h
      | (cases h; exact hv)
  · rw [if_neg c1] at h
    by_cases c2 : s.shType = SHT_PROGBITS ∧ s.name = ".vitalink.vstubs"
    · rw [if_pos c2, if_pos hv] at h
      exact Except.noConfusion h
    · rw [if_neg c2] at h
      split_ifs at h
      all_goals first
      | exact Except.noConfusion h
      | (cases h; exact hv)

/-- The section loop never clears a recorded `fstubs_ndx`. -/
theorem scanSections_fndx_mono :
    ∀ (l : List ElfScn) (st st' : ScanState), scanSections st l = .ok st' →
      st.fstubs_ndx ≠ 0 → st'.fstubs_ndx ≠ 0 := by
  intro l
  induction l with
  | nil =>
    intro st st' h hf
    cases h
    exact hf
  | cons s t ih =>
    intro st st' h hf
    simp only [scanSections] at h
    cases hp : processScn st s with
    | error e => rw [hp] at h; exact Except.noConfusion h
    | ok st1 =>
      rw [hp] at h
      exact ih st1 st' h (processScn_fndx_mono st st1 s hp hf)

/-- The section loop never clears a recorded `vstubs_ndx`. -/
theorem scanSections_vndx_mono :
    ∀ (l : List ElfScn) (st st' : ScanState), scanSections st l = .ok st' →
      st.vstubs_ndx ≠ 0 → st'.vstubs_ndx ≠ 0 := by
  intro l
  induction l with
  | nil =>
    intro st st' h hv
    cases h
    exact hv
  | cons s t ih =>
    intro st st' h hv
    simp only [scanSections] at h
    cases hp : processScn st s with
    | error e => rw [hp] at h; exact Except.noConfusion h
    | ok st1 =>
      rw [hp] at h
      exact ih st1 st' h (processScn_vndx_mono st st1 s hp hv)

/-- Core of claim C10 (fstubs): once an fstubs section index is recorded,
a later fstubs section makes the loop fail; and when the part in between
succeeds, the failure is exactly the "Multiple .vitalink.fstubs sections"
diagnostic. -/
theorem scan_second_fstubs (stB : ScanState) (mid post : List ElfScn)
    (s2 : ElfScn) (hB : stB.fstubs_ndx ≠ 0) (hf2 : isFstubsScn s2) :
    (∃ e, scanSections stB (mid ++ (s2 :: post)) = .error e) ∧
    (∀ stC, scanSections stB mid = .ok stC →
      scanSections stB (mid ++ (s2 :: post)) = .error .multipleFstubs) := by
  have hstep : ∀ stC : ScanState, stC.fstubs_ndx ≠ 0 →
      scanSections stC (s2 :: post) = .error .multipleFstubs := by
    intro stC hC
    simp only [scanSections]
    rw [processScn_fstubs_eq stC s2 hf2, if_pos hC]
  constructor
  · rw [scanSections_append]
    cases hm : scanSections stB mid with
    | error e => exact ⟨e, rfl⟩
    | ok stC =>
      exact ⟨.multipleFstubs,
        hstep stC (scanSections_fndx_mono mid stB stC hm hB)⟩
  · intro stC hm
    rw [scanSections_append, hm]
    exact hstep stC (scanSections_fndx_mono mid stB stC hm hB)

/-- Core of claim C10 (vstubs): mirror of `scan_second_fstubs`. -/
theorem scan_second_vstubs (stB : ScanState) (mid post : List ElfScn)
    (s2 : ElfScn) (hB : stB.vstubs_ndx ≠ 0) (hv2 : isVstubsScn s2) :
    (∃ e, scanSections stB (mid ++ (s2 :: post)) = .error e) ∧
    (∀ stC, scanSections stB mid = .ok stC →
      scanSections stB (mid ++ (s2 :: post)) = .error .multipleVstubs) := by
  have hstep : ∀ stC : ScanState, stC.vstubs_ndx ≠ 0 →
      scanSections stC (s2 :: post) = .error .multipleVstubs := by
    intro stC hC
    simp only [scanSections]
    rw [processScn_vstubs_eq stC s2 hv2, if_pos hC]
  constructor
  · rw [scanSections_append]
    cases hm : scanSections stB mid with
    | error e => exact ⟨e, rfl⟩
    | ok stC =>
      exact ⟨.multipleVstubs,
        hstep stC (scanSections_vndx_mono mid stB stC hm hB)⟩
  · intro stC hm
    rw [scanSections_append, hm]
    exact hstep stC (scanSections_vndx_mono mid stB stC hm hB)

/-- C10: a second PROGBITS section named `.vitalink.fstubs` (resp.
`.vitalink.vstubs`) anywhere after a first one makes `vita_elf_load`'s
section loop fail fatally, whatever else the binary contains; and when
everything before the second is processed successfully the failure is
exactly the "Multiple ... sections" diagnostic.  (`elf_nextscn` starts
after the reserved null section, so a stub section's index is nonzero.) -/
theorem claimC10 :
    (∀ (pre mid post : List ElfScn) (s1 s2 : ElfScn), s1.ndx ≠ 0 →
      isFstubsScn s1 → isFstubsScn s2 →
      (∀ st0, ∃ e,
        scanSections st0 (pre ++ (s1 :: (mid ++ (s2 :: post)))) = .error e) ∧
      (∀ stP, scanSections ⟨0, 0⟩ (pre ++ (s1 :: mid)) = .ok stP →
        scanSections ⟨0, 0⟩ (pre ++ (s1 :: (mid ++ (s2 :: post)))) =
          .error .multipleFstubs)) ∧
    (∀ (pre mid post : List ElfScn) (s1 s2 : ElfScn), s1.ndx ≠ 0 →
      isVstubsScn s1 → isVstubsScn s2 →
      (∀ st0, ∃ e,
        scanSections st0 (pre ++ (s1 :: (mid ++ (s2 :: post)))) = .error e) ∧
      (∀ stP, scanSections ⟨0, 0⟩ (pre ++ (s1 :: mid)) = .ok stP →
        scanSections ⟨0, 0⟩ (pre ++ (s1 :: (mid ++ (s2 :: post)))) =
          .error .multipleVstubs)) := by
  constructor
  · intro pre mid post s1 s2 hn1 hf1 hf2
    constructor
    · intro st0
      rw [scanSections_append]
      cases hpre : scanSections st0 pre with
      | error e => exact ⟨e, rfl⟩
      | ok stA =>
        simp only [scanSections]
        rw [processScn_fstubs_eq stA s1 hf1]
        by_cases hA : stA.fstubs_ndx ≠ 0
        · rw [if_pos hA]
          exact ⟨.multipleFstubs, rfl⟩
        · rw [if_neg hA]
          exact (scan_second_fstubs { stA with fstubs_ndx := s1.ndx }
            mid post s2 hn1 hf2).1
    · intro stP hP
      rw [scanSections_append] at hP ⊢
      cases hpre : scanSections ⟨0, 0⟩ pre with
      | error e => rw [hpre] at hP; exact Except.noConfusion hP
      | ok stA =>
        simp only [scanSections] at hP ⊢
        simp only [hpre] at hP
        rw [processScn_fstubs_eq stA s1 hf1] at hP ⊢
        by_cases hA : stA.fstubs_ndx ≠ 0
        · rw [if_pos hA] at hP
          exact Except.noConfusion hP
        · rw [if_neg hA] at hP ⊢
          exact (scan_second_fstubs { stA with fstubs_ndx := s1.ndx }
            mid post s2 hn1 hf2).2 stP hP
  · intro pre mid post s1 s2 hn1 hv1 hv2
    constructor
    · intro st0
      rw [scanSections_append]
      cases hpre : scanSections st0 pre with
      | error e => exact ⟨e, rfl⟩
      | ok stA =>
        simp only [scanSections]
        rw [processScn_vstubs_eq stA s1 hv1]
        by_cases hA : stA.vstubs_ndx ≠ 0
        · rw [if_pos hA]
          exact ⟨.multipleVstubs, rfl⟩
        · rw [if_neg hA]
          exact (scan_second_vstubs { stA with vstubs_ndx := s1.ndx }
            mid post s2 hn1 hv2).1
    · intro stP hP
      rw [scanSections_append] at hP ⊢
      cases hpre : scanSections ⟨0, 0⟩ pre with
      | error e => rw [hpre] at hP; exact Except.noConfusion hP
      | ok stA =>
        simp only [scanSections] at hP ⊢
        simp only [hpre] at hP
        rw [processScn_vstubs_eq stA s1 hv1] at hP ⊢
        by_cases hA : stA.vstubs_ndx ≠ 0
        · rw [if_pos hA] at hP
          exact Except.noConfusion hP
        · rw [if_neg hA] at hP ⊢
          exact (scan_second_vstubs { stA with vstubs_ndx := s1.ndx }
            mid post s2 hn1 hv2).2 stP hP

/-- C10 witness: two `.vitalink.fstubs` PROGBITS sections at indices 1
and 2 produce exactly the "Multiple .vitalink.fstubs sections"
diagnostic. -/
theorem claimC10_witness :
    scanSections ⟨0, 0⟩
      [⟨1, ".vitalink.fstubs", SHT_PROGBITS, true⟩,
       ⟨2, ".vitalink.fstubs", SHT_PROGBITS, true⟩] =
      .error .multipleFstubs :=
  (claimC10.1 [] [] [] ⟨1, ".vitalink.fstubs", SHT_PROGBITS, true⟩
    ⟨2, ".vitalink.fstubs", SHT_PROGBITS, true⟩ (by decide)
    ⟨rfl, rfl⟩ ⟨rfl, rfl⟩).2 ⟨1, 0⟩ (by rfl)
